import Mathlib

/-!
A shallow embedding of `rtwo/meta.py` (Python 2) and proofs about it.

Modelling conventions:
* Python 2 `int` values are embedded as `Int`; `a / b` on ints is Python's
  floor division, embedded as `Int.fdiv` guarded by a zero test (Python
  raises `ZeroDivisionError` on a zero divisor, embedded as `none`).
* Python `float` values are embedded as exact rationals `ℚ`: `float(a)/float(b)`
  becomes exact division in `ℚ` (again guarded by the zero test), and
  `math.floor` becomes `Int.floor`.  Rounding of IEEE doubles is not modelled;
  for the magnitudes of hypervisor counters the two agree.
* `sys.maxint` on a 64-bit CPython 2 is `2^63 - 1`.
* Provider and Identity objects are opaque values, embedded as `Nat` atoms;
  distinct atoms stand for distinct (non-equal) Python objects.
* Side-effecting driver calls are embedded as explicit traces of effects.
-/

/-- Python 2 `sys.maxint` on a 64-bit platform. -/
def sys.maxint : Int := 2 ^ 63 - 1

/-- Python 2 integer division `a / b` (floor division); `none` models the
`ZeroDivisionError` raised on a zero divisor. -/
def pyIntDiv (a b : Int) : Option Int :=
  if b = 0 then none else some (Int.fdiv a b)

/-- Python float division `float(a) / float(b)`, modelled as exact division in
`ℚ`; `none` models the `ZeroDivisionError` raised on a zero divisor. -/
def pyFloatDiv (a b : ℚ) : Option ℚ :=
  if b = 0 then none else some (a / b)

/-! ## The Meta registry (`Meta.get_meta`, `Meta.create_meta`, `Meta.reset`)

A driver is embedded by the two attributes the registry reads: its provider
object and its identity object, both opaque atoms.  A constructed `Meta`
instance is embedded as a record carrying a unique construction id `uid`
(standing for Python object identity: two separate constructions are two
distinct objects) together with the driver it wraps.  The class-level mapping
`Meta.metas` plus the construction counter form the registry state. -/

structure DriverObj where
  provider : Nat
  identity : Nat
deriving DecidableEq

structure MetaObj where
  uid : Nat
  driver : DriverObj
deriving DecidableEq

structure MetaRegistry where
  metas : List ((Nat × Nat) × MetaObj)
  nextUid : Nat
deriving DecidableEq

/-- `Meta.create_meta(cls, driver)`: constructs a fresh Meta instance and
stores it in `cls.metas` under the key `(driver.provider, driver.identity)`.
Dict assignment is embedded as a prepend; `List.lookup` finds the most
recently stored binding first. -/
def Meta.create_meta (st : MetaRegistry) (driver : DriverObj) : MetaObj × MetaRegistry :=
  let meta : MetaObj := ⟨st.nextUid, driver⟩
  (meta, ⟨((driver.provider, driver.identity), meta) :: st.metas, st.nextUid + 1⟩)

/-- `Meta.get_meta(cls, driver)`: looks up the key
`id = (cls.provider, driver.identity)` — note: `cls.provider`, the class-level
attribute (passed here as `clsProvider`), not `driver.provider` — and returns
the cached instance if the lookup succeeds (a Meta object is always truthy),
otherwise constructs one via `create_meta`. -/
def Meta.get_meta (clsProvider : Nat) (st : MetaRegistry) (driver : DriverObj) :
    MetaObj × MetaRegistry :=
  match st.metas.lookup (clsProvider, driver.identity) with
  | some meta => (meta, st)
  | none => Meta.create_meta st driver

/-- `Meta.reset(cls)`: clears the class-level cache (`cls.metas = {}`).  The
construction counter is bookkeeping of the embedding, not program state, and
is kept. -/
def Meta.reset (st : MetaRegistry) : MetaRegistry :=
  { st with metas := [] }

/-- C1: the spec claims that a second `get_meta` call with the same
(provider, identity) is a cache hit returning the identical Meta instance.
The code looks the cache up under `(cls.provider, driver.identity)` but
`create_meta` stores under `(driver.provider, driver.identity)`.  Whenever the
driver's provider object differs from the class-level `provider` attribute —
which is the case for every driver carrying a constructed provider instance,
as built by `meta.py` itself (`OSProvider()`) — the second call misses the
cache and constructs a fresh instance.  Concretely: class attribute atom `0`,
driver `⟨1, 5⟩`; the two calls return Meta instances with distinct uids. -/
theorem claim_C1_get_meta_constructs_fresh_instance_twice :
    (Meta.get_meta 0 ((Meta.get_meta 0 ⟨[], 0⟩ ⟨1, 5⟩).2) ⟨1, 5⟩).1 ≠
      (Meta.get_meta 0 ⟨[], 0⟩ ⟨1, 5⟩).1 ∧
    (Meta.get_meta 0 ⟨[], 0⟩ ⟨1, 5⟩).1.uid = 0 ∧
    (Meta.get_meta 0 ((Meta.get_meta 0 ⟨[], 0⟩ ⟨1, 5⟩).2) ⟨1, 5⟩).1.uid = 1 := by
  decide

/-! ## The OpenStack capacity calculator (`OSMeta`)

A libcloud `NodeSize` is embedded by the raw `_size` attributes that
`meta.py` reads: an optional `cpu`, an optional `vcpus` (the provider-specific
field-name probing in `_cpu_stats` uses `hasattr`), and `ram` and `disk`
counters. -/

structure RawSize where
  cpu : Option Int
  vcpus : Option Int
  ram : Int
  disk : Int
deriving DecidableEq

structure NodeSize where
  _size : RawSize
deriving DecidableEq

/-- The `hasattr` probing chain of `OSMeta._cpu_stats`: read `size._size.cpu`
if present, fall back to `size._size.vcpus`, and use the sentinel `-1`
(after logging a warning) when neither attribute exists. -/
def OSMeta.resolve_cpu_count (s : RawSize) : Int :=
  match s.cpu with
  | some c => c
  | none =>
    match s.vcpus with
    | none => -1
    | some v => v

/-- Modelled from the spec: the wrapper attribute `size.cpu` that
`OSMeta._cpu_stats` divides by is defined in `rtwo/size.py`, which is not
among the sources here.  The spec treats each dimension as having a single
per-unit footprint resolved by the provider-specific field-name probing
("tries one field name, falls back to a second"), so the wrapper attribute is
modelled as that same resolved value. -/
def NodeSize.cpu (s : NodeSize) : Int :=
  OSMeta.resolve_cpu_count s._size

/-- Modelled from the spec: the wrapper attribute `size.ram` that
`OSMeta._ram_stats` passes to `total_remaining` is defined in `rtwo/size.py`,
which is not among the sources here.  The spec treats the RAM dimension as
having a single per-unit footprint, so the wrapper attribute is modelled as
the raw `size._size.ram` value. -/
def NodeSize.ram (s : NodeSize) : Int :=
  s._size.ram

/-- `OSMeta.total_remaining(max_, total, used, size)`: when the footprint
`size` is non-zero, returns `(floor(max_), (total - used) / size)` with
Python-2 integer floor division (and `math.floor` the identity on its
result); when the footprint is zero, returns `(floor(max_), sys.maxint)`
without dividing. -/
def OSMeta.total_remaining (max_ : ℚ) (total used size : Int) : Option (Int × Int) :=
  if size ≠ 0 then
    (pyIntDiv (total - used) size).map (fun r => (⌊max_⌋, r))
  else
    some (⌊max_⌋, sys.maxint)

/-- `OSMeta._cpu_stats(size, cpu_total, cpu_used)`: resolves the CPU
footprint, computes `max_by_cpu = float(cpu_total)/float(size.cpu)` when the
resolved count is positive and `sys.maxint` otherwise, and hands off to
`total_remaining` with the resolved count as the footprint. -/
def OSMeta._cpu_stats (size : NodeSize) (cpu_total cpu_used : Int) : Option (Int × Int) :=
  let cpu_count := OSMeta.resolve_cpu_count size._size
  (if cpu_count > 0 then pyFloatDiv (cpu_total : ℚ) ((NodeSize.cpu size : Int) : ℚ)
   else some ((sys.maxint : Int) : ℚ)).bind
    (fun max_by_cpu => OSMeta.total_remaining max_by_cpu cpu_total cpu_used cpu_count)

/-- `OSMeta._ram_stats(size, ram_total, ram_used)`: `max_by_ram =
float(ram_total)/float(size._size.ram)` when `size._size.ram > 0`, else
`sys.maxint`; footprint passed to `total_remaining` is the wrapper
`size.ram`. -/
def OSMeta._ram_stats (size : NodeSize) (ram_total ram_used : Int) : Option (Int × Int) :=
  (if size._size.ram > 0 then pyFloatDiv (ram_total : ℚ) ((size._size.ram : Int) : ℚ)
   else some ((sys.maxint : Int) : ℚ)).bind
    (fun max_by_ram => OSMeta.total_remaining max_by_ram ram_total ram_used (NodeSize.ram size))

/-- `OSMeta._disk_stats(size, disk_total, disk_used)`: `max_by_disk =
float(disk_total)/float(size._size.disk)` when `size._size.disk > 0`, else
`sys.maxint`; footprint passed to `total_remaining` is `size._size.disk`. -/
def OSMeta._disk_stats (size : NodeSize) (disk_total disk_used : Int) : Option (Int × Int) :=
  (if size._size.disk > 0 then pyFloatDiv (disk_total : ℚ) ((size._size.disk : Int) : ℚ)
   else some ((sys.maxint : Int) : ℚ)).bind
    (fun max_by_disk => OSMeta.total_remaining max_by_disk disk_total disk_used size._size.disk)

/-- The hypervisor statistics dictionary returned by
`ex_hypervisor_statistics()`, restricted to the keys `occupancy` reads. -/
structure HypervisorStats where
  vcpus : Int
  vcpus_used : Int
  memory_mb : Int
  memory_mb_used : Int
  local_gb : Int
  local_gb_used : Int
deriving DecidableEq

/-- The `{'total': ..., 'remaining': ...}` dictionary stored into
`size.extra['occupancy']`. -/
structure OccupancyFigure where
  total : Int
  remaining : Int
deriving DecidableEq

/-- The body of the `for size in sizes` loop of `OSMeta.occupancy`: computes
the three per-dimension pairs and annotates the size with the element-wise
minimum. -/
def OSMeta.occupancy_body (occ : HypervisorStats) (size : NodeSize) :
    Option (NodeSize × OccupancyFigure) :=
  (OSMeta._cpu_stats size occ.vcpus occ.vcpus_used).bind fun cpu_pair =>
  (OSMeta._ram_stats size occ.memory_mb occ.memory_mb_used).bind fun ram_pair =>
  (OSMeta._disk_stats size occ.local_gb occ.local_gb_used).bind fun disk_pair =>
  some (size, { total := min cpu_pair.1 (min ram_pair.1 disk_pair.1),
                remaining := min cpu_pair.2 (min ram_pair.2 disk_pair.2) })

/-- `OSMeta.occupancy()`: annotates every listed size with its occupancy
figure and returns the sizes. -/
def OSMeta.occupancy (occ : HypervisorStats) :
    List NodeSize → Option (List (NodeSize × OccupancyFigure))
  | [] => some []
  | size :: rest =>
    (OSMeta.occupancy_body occ size).bind fun annotated =>
    (OSMeta.occupancy occ rest).map fun others => annotated :: others

/-! ## Arithmetic helper -/

/-- Python 2 floor division by a positive divisor agrees with the
mathematical floor of the exact quotient. -/
theorem int_fdiv_eq_floor_div (a b : Int) (hb : 0 < b) :
    Int.fdiv a b = ⌊(a : ℚ) / (b : ℚ)⌋ := by
  have h : ((b.toNat : ℕ) : ℤ) = b := Int.toNat_of_nonneg hb.le
  have hq : ((b.toNat : ℕ) : ℚ) = (b : ℚ) := by
    exact_mod_cast congrArg (fun z : ℤ => (z : ℚ)) h
  rw [Int.fdiv_eq_ediv a hb.le]
  conv_lhs => rw [← h]
  rw [← Rat.floor_intCast_div_natCast a b.toNat, hq]

/-- C2: for a positive per-unit footprint `f`, each per-dimension capacity
pair produced by the occupancy calculation is
`(⌊total / f⌋, ⌊(total - used) / f⌋)` — for the CPU dimension (with `f` the
resolved CPU count), the RAM dimension (with `f` the size's `ram`), and the
disk dimension (with `f` the size's `disk`); in particular no
`ZeroDivisionError` is raised. -/
theorem claim_C2_capacity_division_formulas (s : NodeSize) (t u f : Int) (hf : 0 < f) :
    (OSMeta.resolve_cpu_count s._size = f →
      OSMeta._cpu_stats s t u = some (⌊(t : ℚ) / (f : ℚ)⌋, ⌊((t - u : Int) : ℚ) / (f : ℚ)⌋)) ∧
    (s._size.ram = f →
      OSMeta._ram_stats s t u = some (⌊(t : ℚ) / (f : ℚ)⌋, ⌊((t - u : Int) : ℚ) / (f : ℚ)⌋)) ∧
    (s._size.disk = f →
      OSMeta._disk_stats s t u = some (⌊(t : ℚ) / (f : ℚ)⌋, ⌊((t - u : Int) : ℚ) / (f : ℚ)⌋)) := by
  have hfq : ((f : Int) : ℚ) ≠ 0 := by
    exact_mod_cast hf.ne.symm
  have hfz : ¬(f = 0) := hf.ne.symm
  have hfd := int_fdiv_eq_floor_div (t - u) f hf
  refine ⟨fun hc => ?_, fun hr => ?_, fun hd => ?_⟩
  · simp [OSMeta._cpu_stats, NodeSize.cpu, hc, hf, pyFloatDiv, hfq,
      OSMeta.total_remaining, hfz, pyIntDiv, hfd]
  · simp [OSMeta._ram_stats, NodeSize.ram, hr, hf, pyFloatDiv, hfq,
      OSMeta.total_remaining, hfz, pyIntDiv, hfd]
  · simp [OSMeta._disk_stats, hd, hf, pyFloatDiv, hfq,
      OSMeta.total_remaining, hfz, pyIntDiv, hfd]

/-- Witness for C2 at the spec's own example: total 32, used 16, footprint 4
gives max 8 and remaining 4 in every dimension. -/
theorem claim_C2_capacity_division_formulas_witness :
    (0 : Int) < 4 ∧
    OSMeta._cpu_stats ⟨⟨some 4, none, 4, 4⟩⟩ 32 16 = some (8, 4) ∧
    OSMeta._ram_stats ⟨⟨some 4, none, 4, 4⟩⟩ 32 16 = some (8, 4) ∧
    OSMeta._disk_stats ⟨⟨some 4, none, 4, 4⟩⟩ 32 16 = some (8, 4) := by
  have h := claim_C2_capacity_division_formulas ⟨⟨some 4, none, 4, 4⟩⟩ 32 16 4 (by norm_num)
  refine ⟨by norm_num, ?_, ?_, ?_⟩
  · rw [h.1 rfl]; norm_num
  · rw [h.2.1 rfl]; norm_num
  · rw [h.2.2 rfl]; norm_num

/-- C3: the CPU footprint of a size is resolved by trying `cpu` first,
falling back to `vcpus`, and using the sentinel `-1` when neither field is
present; whenever the resolved footprint is positive, the max figure of
`_cpu_stats` is the CPU total divided by that resolved footprint (floored);
otherwise it is `sys.maxint`, the largest representable integer. -/
theorem claim_C3_cpu_footprint_resolution (s : NodeSize) (t u : Int) :
    (∀ c, s._size.cpu = some c → OSMeta.resolve_cpu_count s._size = c) ∧
    (∀ v, s._size.cpu = none → s._size.vcpus = some v →
      OSMeta.resolve_cpu_count s._size = v) ∧
    (s._size.cpu = none → s._size.vcpus = none →
      OSMeta.resolve_cpu_count s._size = -1) ∧
    (0 < OSMeta.resolve_cpu_count s._size →
      (OSMeta._cpu_stats s t u).map Prod.fst =
        some ⌊(t : ℚ) / ((OSMeta.resolve_cpu_count s._size : Int) : ℚ)⌋) ∧
    (OSMeta.resolve_cpu_count s._size ≤ 0 →
      (OSMeta._cpu_stats s t u).map Prod.fst = some sys.maxint) := by
  refine ⟨fun c hc => ?_, fun v hc hv => ?_, fun hc hv => ?_, fun hpos => ?_, fun hnonpos => ?_⟩
  · simp [OSMeta.resolve_cpu_count, hc]
  · simp [OSMeta.resolve_cpu_count, hc, hv]
  · simp [OSMeta.resolve_cpu_count, hc, hv]
  · have hq : ((OSMeta.resolve_cpu_count s._size : Int) : ℚ) ≠ 0 := by
      exact_mod_cast hpos.ne.symm
    simp [OSMeta._cpu_stats, NodeSize.cpu, hpos, pyFloatDiv, hq,
      OSMeta.total_remaining, hpos.ne.symm, pyIntDiv]
  · rcases lt_or_eq_of_le hnonpos with hneg | hzero
    · have hne : ¬(OSMeta.resolve_cpu_count s._size = 0) := hneg.ne
      simp [OSMeta._cpu_stats, NodeSize.cpu, not_lt.mpr hnonpos, hneg.not_lt,
        OSMeta.total_remaining, hne, pyIntDiv, Int.floor_intCast]
    · simp [OSMeta._cpu_stats, NodeSize.cpu, ← hzero, OSMeta.total_remaining,
        Int.floor_intCast]

/-- Witness for C3: a size carrying `cpu = 2`, a size carrying only
`vcpus = 3`, and a size carrying neither, with CPU total 8 and used 2. -/
theorem claim_C3_cpu_footprint_resolution_witness :
    OSMeta.resolve_cpu_count ⟨some 2, none, 1, 1⟩ = 2 ∧
    OSMeta.resolve_cpu_count ⟨none, some 3, 1, 1⟩ = 3 ∧
    OSMeta.resolve_cpu_count ⟨none, none, 1, 1⟩ = -1 ∧
    (OSMeta._cpu_stats ⟨⟨some 2, none, 1, 1⟩⟩ 8 2).map Prod.fst = some 4 ∧
    (OSMeta._cpu_stats ⟨⟨none, none, 1, 1⟩⟩ 8 2).map Prod.fst = some sys.maxint := by
  have h1 := claim_C3_cpu_footprint_resolution ⟨⟨some 2, none, 1, 1⟩⟩ 8 2
  have h2 := claim_C3_cpu_footprint_resolution ⟨⟨none, some 3, 1, 1⟩⟩ 8 2
  have h3 := claim_C3_cpu_footprint_resolution ⟨⟨none, none, 1, 1⟩⟩ 8 2
  refine ⟨h1.1 2 rfl, h2.2.1 3 rfl rfl, h3.2.2.1 rfl rfl, ?_, ?_⟩
  · have := h1.2.2.2.1 (by norm_num [OSMeta.resolve_cpu_count])
    rw [this]
    norm_num [OSMeta.resolve_cpu_count]
  · exact h3.2.2.2.2 (by norm_num [OSMeta.resolve_cpu_count])

/-- C4: for a zero per-unit footprint the occupancy calculation returns the
unbounded sentinel `sys.maxint` for both the max and the remaining figure in
every dimension, and no division by zero occurs (the result is `some`, not
the embedded `ZeroDivisionError`). -/
theorem claim_C4_zero_footprint_sentinel (s : NodeSize) (t u : Int) :
    (OSMeta.resolve_cpu_count s._size = 0 →
      OSMeta._cpu_stats s t u = some (sys.maxint, sys.maxint)) ∧
    (s._size.ram = 0 → OSMeta._ram_stats s t u = some (sys.maxint, sys.maxint)) ∧
    (s._size.disk = 0 → OSMeta._disk_stats s t u = some (sys.maxint, sys.maxint)) := by
  refine ⟨fun hc => ?_, fun hr => ?_, fun hd => ?_⟩
  · simp [OSMeta._cpu_stats, NodeSize.cpu, hc, OSMeta.total_remaining, Int.floor_intCast]
  · simp [OSMeta._ram_stats, NodeSize.ram, hr, OSMeta.total_remaining, Int.floor_intCast]
  · simp [OSMeta._disk_stats, hd, OSMeta.total_remaining, Int.floor_intCast]

/-- Witness for C4: a size whose three footprints are all zero, with
total 10 and used 3. -/
theorem claim_C4_zero_footprint_sentinel_witness :
    OSMeta._cpu_stats ⟨⟨some 0, none, 0, 0⟩⟩ 10 3 = some (sys.maxint, sys.maxint) ∧
    OSMeta._ram_stats ⟨⟨some 0, none, 0, 0⟩⟩ 10 3 = some (sys.maxint, sys.maxint) ∧
    OSMeta._disk_stats ⟨⟨some 0, none, 0, 0⟩⟩ 10 3 = some (sys.maxint, sys.maxint) := by
  have h := claim_C4_zero_footprint_sentinel ⟨⟨some 0, none, 0, 0⟩⟩ 10 3
  exact ⟨h.1 rfl, h.2.1 rfl, h.2.2 rfl⟩

/-! ## Totality of the per-dimension statistics

The guards in the source (`size != 0`, `cpu_count > 0`, `size._size.ram > 0`,
`size._size.disk > 0`) ensure that no division ever sees a zero divisor, so
each statistics function always returns a value. -/

theorem OSMeta.total_remaining_isSome (max_ : ℚ) (total used size : Int) :
    ∃ p, OSMeta.total_remaining max_ total used size = some p := by
  by_cases h : size = 0
  · exact ⟨(⌊max_⌋, sys.maxint), by simp [OSMeta.total_remaining, h]⟩
  · exact ⟨(⌊max_⌋, Int.fdiv (total - used) size),
      by simp [OSMeta.total_remaining, h, pyIntDiv]⟩

theorem OSMeta._cpu_stats_isSome (s : NodeSize) (t u : Int) :
    ∃ p, OSMeta._cpu_stats s t u = some p := by
  by_cases h : OSMeta.resolve_cpu_count s._size > 0
  · have hne : NodeSize.cpu s ≠ 0 := by
      simpa [NodeSize.cpu] using h.ne.symm
    have hq : ((NodeSize.cpu s : Int) : ℚ) ≠ 0 := by exact_mod_cast hne
    obtain ⟨p, hp⟩ := OSMeta.total_remaining_isSome
      ((t : ℚ) / ((NodeSize.cpu s : Int) : ℚ)) t u (OSMeta.resolve_cpu_count s._size)
    exact ⟨p, by simp [OSMeta._cpu_stats, h, pyFloatDiv, hq, hp]⟩
  · obtain ⟨p, hp⟩ := OSMeta.total_remaining_isSome
      (((sys.maxint : Int) : ℚ)) t u (OSMeta.resolve_cpu_count s._size)
    exact ⟨p, by simp [OSMeta._cpu_stats, h, hp]⟩

theorem OSMeta._ram_stats_isSome (s : NodeSize) (t u : Int) :
    ∃ p, OSMeta._ram_stats s t u = some p := by
  by_cases h : s._size.ram > 0
  · have hq : ((s._size.ram : Int) : ℚ) ≠ 0 := by exact_mod_cast h.ne.symm
    obtain ⟨p, hp⟩ := OSMeta.total_remaining_isSome
      ((t : ℚ) / ((s._size.ram : Int) : ℚ)) t u (NodeSize.ram s)
    exact ⟨p, by simp [OSMeta._ram_stats, h, pyFloatDiv, hq, hp]⟩
  · obtain ⟨p, hp⟩ := OSMeta.total_remaining_isSome
      (((sys.maxint : Int) : ℚ)) t u (NodeSize.ram s)
    exact ⟨p, by simp [OSMeta._ram_stats, h, hp]⟩

theorem OSMeta._disk_stats_isSome (s : NodeSize) (t u : Int) :
    ∃ p, OSMeta._disk_stats s t u = some p := by
  by_cases h : s._size.disk > 0
  · have hq : ((s._size.disk : Int) : ℚ) ≠ 0 := by exact_mod_cast h.ne.symm
    obtain ⟨p, hp⟩ := OSMeta.total_remaining_isSome
      ((t : ℚ) / ((s._size.disk : Int) : ℚ)) t u s._size.disk
    exact ⟨p, by simp [OSMeta._disk_stats, h, pyFloatDiv, hq, hp]⟩
  · obtain ⟨p, hp⟩ := OSMeta.total_remaining_isSome
      (((sys.maxint : Int) : ℚ)) t u s._size.disk
    exact ⟨p, by simp [OSMeta._disk_stats, h, hp]⟩

theorem OSMeta.occupancy_body_eq (occ : HypervisorStats) (size : NodeSize)
    (pc pr pd : Int × Int)
    (hc : OSMeta._cpu_stats size occ.vcpus occ.vcpus_used = some pc)
    (hr : OSMeta._ram_stats size occ.memory_mb occ.memory_mb_used = some pr)
    (hd : OSMeta._disk_stats size occ.local_gb occ.local_gb_used = some pd) :
    OSMeta.occupancy_body occ size =
      some (size, ⟨min pc.1 (min pr.1 pd.1), min pc.2 (min pr.2 pd.2)⟩) := by
  simp [OSMeta.occupancy_body, hc, hr, hd]

theorem OSMeta.occupancy_body_isSome (occ : HypervisorStats) (size : NodeSize) :
    ∃ p, OSMeta.occupancy_body occ size = some p := by
  obtain ⟨pc, hc⟩ := OSMeta._cpu_stats_isSome size occ.vcpus occ.vcpus_used
  obtain ⟨pr, hr⟩ := OSMeta._ram_stats_isSome size occ.memory_mb occ.memory_mb_used
  obtain ⟨pd, hd⟩ := OSMeta._disk_stats_isSome size occ.local_gb occ.local_gb_used
  exact ⟨_, OSMeta.occupancy_body_eq occ size pc pr pd hc hr hd⟩

/-- C5: `occupancy` annotates every size with the element-wise minimum of the
three dimension-specific (max, remaining) pairs: for each position in the
size list, if the CPU, RAM and disk statistics of that size are the pairs
`pc`, `pr`, `pd`, then the attached figure is
`(min of the three max figures, min of the three remaining figures)`. -/
theorem claim_C5_occupancy_elementwise_min (occ : HypervisorStats) (sizes : List NodeSize) :
    ∃ l, OSMeta.occupancy occ sizes = some l ∧ l.length = sizes.length ∧
      ∀ i (hi : i < sizes.length) pc pr pd,
        OSMeta._cpu_stats (sizes.get ⟨i, hi⟩) occ.vcpus occ.vcpus_used = some pc →
        OSMeta._ram_stats (sizes.get ⟨i, hi⟩) occ.memory_mb occ.memory_mb_used = some pr →
        OSMeta._disk_stats (sizes.get ⟨i, hi⟩) occ.local_gb occ.local_gb_used = some pd →
        l[i]? = some (sizes.get ⟨i, hi⟩,
          ⟨min pc.1 (min pr.1 pd.1), min pc.2 (min pr.2 pd.2)⟩) := by
  induction sizes with
  | nil => exact ⟨[], rfl, rfl, fun i hi => absurd hi (Nat.not_lt_zero i)⟩
  | cons size rest ih =>
    obtain ⟨l, hl, hlen, hidx⟩ := ih
    obtain ⟨p, hp⟩ := OSMeta.occupancy_body_isSome occ size
    refine ⟨p :: l, ?_, ?_, ?_⟩
    · simp [OSMeta.occupancy, hp, hl]
    · simp [hlen]
    · intro i hi pc pr pd hc hr hd
      cases i with
      | zero =>
        have hget : (size :: rest).get ⟨0, hi⟩ = size := rfl
        rw [hget] at hc hr hd
        have hbody := OSMeta.occupancy_body_eq occ size pc pr pd hc hr hd
        have hpe : p = (size, ⟨min pc.1 (min pr.1 pd.1), min pc.2 (min pr.2 pd.2)⟩) :=
          Option.some.inj (hp.symm.trans hbody)
        simp [hpe, hget]
      | succ j =>
        have hj : j < rest.length := Nat.lt_of_succ_lt_succ hi
        have hget : (size :: rest).get ⟨j + 1, hi⟩ = rest.get ⟨j, hj⟩ := rfl
        rw [hget] at hc hr hd
        rw [hget]
        simpa using hidx j hj pc pr pd hc hr hd

/-- Witness for C5: hypervisor stats (32 vcpus with 16 used, 64 MB RAM with
32 used, 100 GB disk with 60 used) and one size with footprints 4 CPU, 8 RAM,
10 disk: the per-dimension pairs are (8,4), (8,4), (10,4) and the annotated
figure is their element-wise minimum (8,4). -/
theorem claim_C5_occupancy_elementwise_min_witness :
    ∃ l, OSMeta.occupancy ⟨32, 16, 64, 32, 100, 60⟩ [⟨⟨some 4, none, 8, 10⟩⟩] = some l ∧
      l[0]? = some (⟨⟨some 4, none, 8, 10⟩⟩, ⟨8, 4⟩) := by
  obtain ⟨l, hl, hlen, hidx⟩ :=
    claim_C5_occupancy_elementwise_min ⟨32, 16, 64, 32, 100, 60⟩ [⟨⟨some 4, none, 8, 10⟩⟩]
  have hfd1 : Int.fdiv (16 : Int) 4 = 4 := by decide
  have hfd2 : Int.fdiv (32 : Int) 8 = 4 := by decide
  have hfd3 : Int.fdiv (40 : Int) 10 = 4 := by decide
  have hc : OSMeta._cpu_stats ⟨⟨some 4, none, 8, 10⟩⟩ 32 16 = some (8, 4) := by
    norm_num [OSMeta._cpu_stats, NodeSize.cpu, OSMeta.resolve_cpu_count, pyFloatDiv,
      OSMeta.total_remaining, pyIntDiv, hfd1]
  have hr : OSMeta._ram_stats ⟨⟨some 4, none, 8, 10⟩⟩ 64 32 = some (8, 4) := by
    norm_num [OSMeta._ram_stats, NodeSize.ram, pyFloatDiv,
      OSMeta.total_remaining, pyIntDiv, hfd2]
  have hd : OSMeta._disk_stats ⟨⟨some 4, none, 8, 10⟩⟩ 100 60 = some (10, 4) := by
    norm_num [OSMeta._disk_stats, pyFloatDiv,
      OSMeta.total_remaining, pyIntDiv, hfd3]
  have h := hidx 0 (by norm_num) (8, 4) (8, 4) (10, 4) hc hr hd
  exact ⟨l, hl, by simpa using h⟩

/-! ## Fleet operations (`OSMeta.stop_all_instances`,
`OSMeta.destroy_all_instances`, `OSMeta.remove_metadata_deployed`)

Instances are embedded by the one attribute the loops read, the status
string returned by `get_status()`.  The side-effecting driver calls are
embedded as a trace of effects, emitted in program order; the boolean the
Python functions return is paired with the trace. -/

structure OSInstance where
  status : String
deriving DecidableEq

inductive FleetEffect where
  | stop_instance (i : OSInstance)
  | destroy_instance (i : OSInstance)
  | delete_tenant_network (username tenant_name : String)
deriving DecidableEq

/-- The body of the `for instance in self.all_instances()` loop of
`stop_all_instances`: destroy when `destroy` is set, otherwise stop exactly
the instances whose status equals "active". -/
def OSMeta.stop_loop_body (destroy : Bool) (i : OSInstance) : List FleetEffect :=
  if destroy then [FleetEffect.destroy_instance i]
  else if i.status == "active" then [FleetEffect.stop_instance i]
  else []

/-- `OSMeta.stop_all_instances(destroy=...)` over the instance list returned
by `all_instances()` and the user-group names known to the account driver:
processes every instance in order, then — only when `destroy` is set —
deletes each user group's tenant network (with `tenant_name = username`),
and returns `True`. -/
def OSMeta.stop_all_instances (instances : List OSInstance) (usergroups : List String)
    (destroy : Bool) : List FleetEffect × Bool :=
  ((instances.map (OSMeta.stop_loop_body destroy)).flatten ++
    (if destroy then usergroups.map (fun u => FleetEffect.delete_tenant_network u u)
     else []),
   true)

/-- `OSMeta.destroy_all_instances()`: destroys every instance in order, then
deletes each user group's tenant network (with `tenant_name = username`),
and returns `True`. -/
def OSMeta.destroy_all_instances (instances : List OSInstance) (usergroups : List String) :
    List FleetEffect × Bool :=
  (instances.map FleetEffect.destroy_instance ++
    usergroups.map (fun u => FleetEffect.delete_tenant_network u u),
   true)

/-- Python truthiness of `dict.get(key)`: `None` (absent key) is falsy, a
string value is truthy exactly when it is non-empty. -/
def pyTruthyGet : Option String → Bool
  | none => false
  | some s => !(s == "")

/-- `OSMeta.remove_metadata_deployed(machine)`: reads the image metadata and
deletes the "deployed" key only when `machine_metadata.get("deployed")` is
truthy.  The result is the list of keys passed to
`ex_delete_image_metadata`. -/
def OSMeta.remove_metadata_deployed (machine_metadata : List (String × String)) :
    List String :=
  if pyTruthyGet (machine_metadata.lookup "deployed") then ["deployed"] else []

/-- `flatten` of singleton lists is `map` (helper for the destroy branch of the
stop loop). -/
theorem flatten_map_singleton {α β : Type} (f : α → List β) (g : α → β)
    (h : ∀ a, f a = [g a]) (l : List α) : (l.map f).flatten = l.map g := by
  induction l with
  | nil => rfl
  | cons a l ih => simp [h, ih]

/-- C6: `stop_all_instances(destroy=False)` stops exactly the instances whose
status equals "active" (in order), never destroys an instance, and deletes no
tenant network. -/
theorem claim_C6_stop_only_active (instances : List OSInstance) (usergroups : List String) :
    (OSMeta.stop_all_instances instances usergroups false).1 =
      (instances.filter (fun i => i.status == "active")).map FleetEffect.stop_instance ∧
    (∀ i, FleetEffect.destroy_instance i ∉
      (OSMeta.stop_all_instances instances usergroups false).1) ∧
    (∀ a b, FleetEffect.delete_tenant_network a b ∉
      (OSMeta.stop_all_instances instances usergroups false).1) := by
  have hmain : (OSMeta.stop_all_instances instances usergroups false).1 =
      (instances.filter (fun i => i.status == "active")).map FleetEffect.stop_instance := by
    simp only [OSMeta.stop_all_instances, if_neg Bool.false_ne_true, List.append_nil]
    induction instances with
    | nil => rfl
    | cons i rest ih =>
      by_cases h : i.status == "active"
      · simp [OSMeta.stop_loop_body, h, List.filter_cons, ih]
      · simp [OSMeta.stop_loop_body, h, List.filter_cons, ih]
  refine ⟨hmain, fun i => ?_, fun a b => ?_⟩
  · rw [hmain]
    simp [List.mem_map]
  · rw [hmain]
    simp [List.mem_map]

/-- C7: `stop_all_instances(destroy=True)` destroys every instance with no
status filtering, then deletes every known user group's tenant network. -/
theorem claim_C7_destroy_every_instance_and_network (instances : List OSInstance)
    (usergroups : List String) :
    (OSMeta.stop_all_instances instances usergroups true).1 =
      instances.map FleetEffect.destroy_instance ++
        usergroups.map (fun u => FleetEffect.delete_tenant_network u u) ∧
    (∀ i ∈ instances, FleetEffect.destroy_instance i ∈
      (OSMeta.stop_all_instances instances usergroups true).1) ∧
    (∀ u ∈ usergroups, FleetEffect.delete_tenant_network u u ∈
      (OSMeta.stop_all_instances instances usergroups true).1) := by
  have hmain : (OSMeta.stop_all_instances instances usergroups true).1 =
      instances.map FleetEffect.destroy_instance ++
        usergroups.map (fun u => FleetEffect.delete_tenant_network u u) := by
    have hred : (OSMeta.stop_all_instances instances usergroups true).1 =
        (instances.map (OSMeta.stop_loop_body true)).flatten ++
          usergroups.map (fun u => FleetEffect.delete_tenant_network u u) := rfl
    rw [hred, flatten_map_singleton (OSMeta.stop_loop_body true) FleetEffect.destroy_instance
      (fun i => rfl) instances]
  refine ⟨hmain, fun i hi => ?_, fun u hu => ?_⟩
  · rw [hmain]
    exact List.mem_append_left _ (List.mem_map_of_mem _ hi)
  · rw [hmain]
    exact List.mem_append_right _ (List.mem_map_of_mem _ hu)

/-- Witness for C7 at a concrete fleet: two instances (one active, one in
error state) and one user group. -/
theorem claim_C7_destroy_every_instance_and_network_witness :
    (⟨"active"⟩ : OSInstance) ∈ ([⟨"active"⟩, ⟨"error"⟩] : List OSInstance) ∧
    ("grp" : String) ∈ (["grp"] : List String) ∧
    (OSMeta.stop_all_instances [⟨"active"⟩, ⟨"error"⟩] ["grp"] true).1 =
      [FleetEffect.destroy_instance ⟨"active"⟩, FleetEffect.destroy_instance ⟨"error"⟩,
        FleetEffect.delete_tenant_network "grp" "grp"] ∧
    FleetEffect.destroy_instance ⟨"active"⟩ ∈
      (OSMeta.stop_all_instances [⟨"active"⟩, ⟨"error"⟩] ["grp"] true).1 ∧
    FleetEffect.delete_tenant_network "grp" "grp" ∈
      (OSMeta.stop_all_instances [⟨"active"⟩, ⟨"error"⟩] ["grp"] true).1 := by
  have h := claim_C7_destroy_every_instance_and_network
    [⟨"active"⟩, ⟨"error"⟩] ["grp"]
  refine ⟨by simp, by simp, by rw [h.1]; rfl,
    h.2.1 ⟨"active"⟩ (by simp), h.2.2 "grp" (by simp)⟩

/-- C8: `destroy_all_instances()` is behaviourally equivalent to
`stop_all_instances(destroy=True)`: the same effect trace and the same
return value on every input. -/
theorem claim_C8_destroy_all_equiv_stop_all_true (instances : List OSInstance)
    (usergroups : List String) :
    OSMeta.destroy_all_instances instances usergroups =
      OSMeta.stop_all_instances instances usergroups true := by
  have hred : OSMeta.stop_all_instances instances usergroups true =
      ((instances.map (OSMeta.stop_loop_body true)).flatten ++
        usergroups.map (fun u => FleetEffect.delete_tenant_network u u), true) := rfl
  rw [hred]
  unfold OSMeta.destroy_all_instances
  rw [flatten_map_singleton (OSMeta.stop_loop_body true) FleetEffect.destroy_instance
    (fun i => rfl) instances]

/-- C9: on a machine whose image metadata lacks the "deployed" key,
`remove_metadata_deployed` performs no delete call. -/
theorem claim_C9_remove_metadata_deployed_noop (machine_metadata : List (String × String))
    (h : machine_metadata.lookup "deployed" = none) :
    OSMeta.remove_metadata_deployed machine_metadata = [] := by
  simp [OSMeta.remove_metadata_deployed, h, pyTruthyGet]

/-- Witness for C9: metadata holding only an unrelated key. -/
theorem claim_C9_remove_metadata_deployed_noop_witness :
    ([("os_distro", "ubuntu")] : List (String × String)).lookup "deployed" = none ∧
    OSMeta.remove_metadata_deployed [("os_distro", "ubuntu")] = [] := by
  have h : ([("os_distro", "ubuntu")] : List (String × String)).lookup "deployed" = none := by
    simp [List.lookup]
  exact ⟨h, claim_C9_remove_metadata_deployed_noop [("os_distro", "ubuntu")] h⟩

/-- C10: both bulk operations return `True` whenever they run to completion;
the flag is never `False`, so failure is only ever observable as a propagated
exception. -/
theorem claim_C10_success_flag_always_true (instances : List OSInstance)
    (usergroups : List String) (destroy : Bool) :
    (OSMeta.stop_all_instances instances usergroups destroy).2 = true ∧
    (OSMeta.destroy_all_instances instances usergroups).2 = true :=
  ⟨rfl, rfl⟩
